import Mathlib

/-!
Verification development for the mp3 ID3 tag-completion engine.

The definitions below are a shallow embedding of the Python sources in
`src/mp3_id3_processor/` (processor.py, metadata_extractor.py, models.py,
config.py, main.py).  File-system and network effects are out of scope: an
MP3 file is represented by its ID3 frame container, and a "save" is recorded
as a boolean so that the persisted state can be compared with the in-memory
state.  Python strings are Lean `String`s; `None` is `Option.none`;
Python truthiness of an optional string is "present and non-empty".
-/

/-- The ID3 frame container of one MP3 file, as accessed by the code.
Each frame holds its `text` list of strings (mutagen frames carry a list).
`none` means the frame is absent from the container.  Frames: TCON (genre),
TDRC (recording date, ID3v2.4), TYER (year, ID3v2.3), TPE1/TPE2/TOPE
(artist variants), TALB (album), TIT2 (title). -/
structure Mp3Tags where
  tcon : Option (List String) := none
  tdrc : Option (List String) := none
  tyer : Option (List String) := none
  tpe1 : Option (List String) := none
  tpe2 : Option (List String) := none
  tope : Option (List String) := none
  talb : Option (List String) := none
  tit2 : Option (List String) := none
deriving DecidableEq

/-- Characters removed by Python `str.strip()` with no argument (ASCII
whitespace; exotic unicode whitespace is not exercised by this code). -/
def isPyWhitespace (c : Char) : Bool :=
  c == ' ' || c == '\t' || c == '\n' || c == '\r' || c == '\x0b' || c == '\x0c'

/-- Python `str.strip()`: drop leading and trailing whitespace.  Defined over
the character list so that the kernel can evaluate it on concrete strings. -/
def pyStrip (s : String) : String :=
  ⟨((s.data.dropWhile isPyWhitespace).reverse.dropWhile isPyWhitespace).reverse⟩

/-- Lower-casing of one ASCII character, as Python `str.lower()` acts on the
letters appearing in this code. -/
def pyCharLower (c : Char) : Char :=
  if 65 ≤ c.toNat && c.toNat ≤ 90 then Char.ofNat (c.toNat + 32) else c

/-- Python `str.lower()` restricted to ASCII input. -/
def pyLower (s : String) : String :=
  ⟨s.data.map pyCharLower⟩

/-- Python `str.isdigit()` on the ASCII digit strings this code handles:
non-empty and all digits. -/
def pyIsDigit (s : String) : Bool :=
  !s.data.isEmpty && s.data.all Char.isDigit

/-- Python `int(s)` for a string that passed `isdigit()`. -/
def pyToNat (s : String) : Nat :=
  s.data.foldl (fun n c => n * 10 + (c.toNat - 48)) 0

/-- Python truthiness of an `Optional[str]`: not `None` and not the empty
string. -/
def pyTruthyOptStr : Option String → Bool
  | none => false
  | some s => !(s == "")

/-- `ID3Processor.needs_genre_tag` (processor.py lines 139-161): true when
the TCON frame is absent, or its text list is empty, or every text entry is
blank after stripping. -/
def needs_genre_tag (t : Mp3Tags) : Bool :=
  match t.tcon with
  | none => true
  | some texts =>
    if texts.isEmpty || !(texts.any (fun s => !(pyStrip s == ""))) then true
    else false

/-- `ID3Processor.needs_year_tag` (processor.py lines 163-188): false as soon
as TDRC or TYER carries some non-blank text, true otherwise. -/
def needs_year_tag (t : Mp3Tags) : Bool :=
  if (match t.tdrc with
      | some texts => texts.any (fun s => !(pyStrip s == ""))
      | none => false) then false
  else if (match t.tyer with
      | some texts => texts.any (fun s => !(pyStrip s == ""))
      | none => false) then false
  else true

/-- The slice of `Configuration` read by `ID3Processor`: the
`default_genre` and `default_year` properties (config.py lines 111-119),
both `Optional[str]`. -/
structure Config where
  default_genre : Option String := none
  default_year : Option String := none
deriving DecidableEq

/-- Outcome of `ID3Processor.add_missing_tags`: the list of tag names added,
the container after the in-memory frame writes, and whether
`audio_file.save()` ran (`_save_file_safely` is a no-op in dry-run mode). -/
structure WriteOutcome where
  added : List String
  tags : Mp3Tags
  saved : Bool
deriving DecidableEq

/-- `if genre is None: genre = self.config.default_genre`
(processor.py lines 214-217): an explicitly provided value, even the empty
string, shadows the configured default. -/
def effectiveValue (provided dflt : Option String) : Option String :=
  match provided with
  | none => dflt
  | some s => some s

/-- `ID3Processor.add_missing_tags` (processor.py lines 190-243).
Writes TCON when the effective genre is truthy and `needs_genre_tag` holds;
writes TDRC and TYER when the effective year is truthy and `needs_year_tag`
holds (evaluated, as in the source, on the container after the genre
write); calls `_save_file_safely` only when `added_tags` is non-empty, and
that call saves only when not in dry-run mode (processor.py lines 279-281).
File-system failures inside the save are out of scope. -/
def add_missing_tags (cfg : Config) (dry_run : Bool) (t : Mp3Tags)
    (genre year : Option String) : WriteOutcome :=
  let g := effectiveValue genre cfg.default_genre
  let y := effectiveValue year cfg.default_year
  let step1 :=
    if pyTruthyOptStr g && needs_genre_tag t then
      (["genre"], { t with tcon := some [g.getD ""] })
    else ([], t)
  let step2 :=
    if pyTruthyOptStr y && needs_year_tag step1.2 then
      (step1.1 ++ ["year"],
        { step1.2 with tdrc := some [y.getD ""], tyer := some [y.getD ""] })
    else step1
  { added := step2.1, tags := step2.2, saved := !step2.1.isEmpty && !dry_run }

/-- Result of `ID3Processor.process_file` on a successfully loaded file,
with the resulting container state and save flag attached so that frame
effects can be stated. -/
structure ProcOut where
  success : Bool
  tags_added : List String
  tags : Mp3Tags
  saved : Bool
deriving DecidableEq

/-- `ID3Processor.process_file` (processor.py lines 25-75) on a loaded file:
collect the needed tags; when none are needed return success with an empty
list without calling `add_missing_tags` (hence no save); otherwise delegate
to `add_missing_tags` with no explicit genre or year, so configuration
defaults apply.  Load failures are out of scope (the file is given as its
container). -/
def process_file (cfg : Config) (dry_run : Bool) (t : Mp3Tags) : ProcOut :=
  let tags_to_add :=
    (if needs_genre_tag t then ["genre"] else []) ++
    (if needs_year_tag t then ["year"] else [])
  if tags_to_add.isEmpty then
    { success := true, tags_added := [], tags := t, saved := false }
  else
    let w := add_missing_tags cfg dry_run t none none
    { success := true, tags_added := w.added, tags := w.tags, saved := w.saved }

/-- The on-disk container after a processing step: it changes only if a
save ran. -/
def persistedTags (orig : Mp3Tags) (newTags : Mp3Tags) (saved : Bool) : Mp3Tags :=
  if saved then newTags else orig

/-- `ExistingMetadata` (metadata_extractor.py lines 14-24): the snapshot
record.  `file_path` is omitted (file identity plays no role in the claims
about this type). -/
structure ExistingMetadata where
  artist : Option String := none
  album : Option String := none
  title : Option String := none
  genre : Option String := none
  year : Option String := none
  has_genre : Bool := false
  has_year : Bool := false
deriving DecidableEq

/-- `ExistingMetadata._normalize_string` (metadata_extractor.py lines
39-44): strip whitespace; empty after stripping collapses to `None`. -/
def _normalize_string (value : Option String) : Option String :=
  match value with
  | none => none
  | some s =>
    let normalized := pyStrip s
    if !(normalized == "") then some normalized else none

/-- `ExistingMetadata.__post_init__` (metadata_extractor.py lines 26-37):
normalize the five string attributes, then recompute `has_genre` and
`has_year` from the normalized content, overwriting whatever flag values
were passed to the constructor. -/
def ExistingMetadata.post_init (m : ExistingMetadata) : ExistingMetadata :=
  let m := { m with artist := _normalize_string m.artist }
  let m := { m with album := _normalize_string m.album }
  let m := { m with title := _normalize_string m.title }
  let m := { m with genre := _normalize_string m.genre }
  let m := { m with year := _normalize_string m.year }
  let m := { m with has_genre := m.genre.isSome }
  { m with has_year := m.year.isSome }

/-- The dataclass constructor `ExistingMetadata(...)`: field assignment
followed by `__post_init__`. -/
def mkExistingMetadata (artist album title genre year : Option String)
    (hg hy : Bool) : ExistingMetadata :=
  ExistingMetadata.post_init
    { artist, album, title, genre, year, has_genre := hg, has_year := hy }

/-- `ExistingMetadata.needs_genre` (metadata_extractor.py lines 46-48). -/
def ExistingMetadata.needs_genre (m : ExistingMetadata) : Bool := !m.has_genre

/-- `ExistingMetadata.needs_year` (metadata_extractor.py lines 50-52). -/
def ExistingMetadata.needs_year (m : ExistingMetadata) : Bool := !m.has_year

/-- `ExistingMetadata.has_lookup_info` (metadata_extractor.py lines 58-60). -/
def ExistingMetadata.has_lookup_info (m : ExistingMetadata) : Bool :=
  m.artist.isSome || m.title.isSome

/-- The guard pattern `if frame.text and frame.text[0]:` used by every
extractor method: the frame is present, its text list is non-empty, and the
first entry is a truthy (non-empty) string. -/
def frameFirstTruthy : Option (List String) → Option String
  | some texts =>
    match texts.head? with
    | some s => if !(s == "") then some s else none
    | none => none
  | none => none

/-- `MetadataExtractor._extract_artist` (metadata_extractor.py lines
160-176): try TPE1, TPE2, TOPE in order; the first frame with a truthy
first text entry is stripped and returned (empty after strip gives `None`
immediately, without trying later frames). -/
def _extract_artist (t : Mp3Tags) : Option String :=
  match frameFirstTruthy t.tpe1 with
  | some s => _normalize_string (some s)
  | none =>
    match frameFirstTruthy t.tpe2 with
    | some s => _normalize_string (some s)
    | none =>
      match frameFirstTruthy t.tope with
      | some s => _normalize_string (some s)
      | none => none

/-- `MetadataExtractor._extract_album` (metadata_extractor.py lines
178-189): TALB stripped; unlike artist, a whitespace-only entry yields the
empty string rather than `None`. -/
def _extract_album (t : Mp3Tags) : Option String :=
  match frameFirstTruthy t.talb with
  | some s => some (pyStrip s)
  | none => none

/-- `MetadataExtractor._extract_title` (metadata_extractor.py lines
191-202): TIT2 stripped, same shape as album. -/
def _extract_title (t : Mp3Tags) : Option String :=
  match frameFirstTruthy t.tit2 with
  | some s => some (pyStrip s)
  | none => none

/-- `MetadataExtractor._extract_genre` (metadata_extractor.py lines
204-218): TCON stripped, and the placeholder words unknown / other
(case-insensitive) are filtered out to `None`. -/
def _extract_genre (t : Mp3Tags) : Option String :=
  match frameFirstTruthy t.tcon with
  | some s =>
    let genre := pyStrip s
    if !(genre == "") && !(["unknown", "other", ""].contains (pyLower genre)) then
      some genre
    else none
  | none => none

/-- The TDRC arm of `MetadataExtractor._extract_year` (metadata_extractor.py
lines 223-232): strip, require length at least 4, take the first 4
characters, accept only an all-digit value in [1900, 2030]; on any failure
fall through (to the TYER arm). -/
def _extract_year_tdrc (t : Mp3Tags) : Option String :=
  match frameFirstTruthy t.tdrc with
  | some s =>
    let year_str := pyStrip s
    if !(year_str == "") && year_str.data.length ≥ 4 then
      let year : String := ⟨year_str.data.take 4⟩
      if pyIsDigit year && 1900 ≤ pyToNat year && pyToNat year ≤ 2030 then
        some year
      else none
    else none
  | none => none

/-- The TYER arm of `MetadataExtractor._extract_year` (metadata_extractor.py
lines 234-240): strip, accept only an all-digit value in [1900, 2030]
(no length truncation). -/
def _extract_year_tyer (t : Mp3Tags) : Option String :=
  match frameFirstTruthy t.tyer with
  | some s =>
    let year_str := pyStrip s
    if !(year_str == "") && pyIsDigit year_str
        && 1900 ≤ pyToNat year_str && pyToNat year_str ≤ 2030 then
      some year_str
    else none
  | none => none

/-- `MetadataExtractor._extract_year` (metadata_extractor.py lines 220-245):
the TDRC arm returns on success, otherwise control falls through to the
TYER arm, otherwise `None`. -/
def _extract_year (t : Mp3Tags) : Option String :=
  match _extract_year_tdrc t with
  | some y => some y
  | none => _extract_year_tyer t

/-- `MetadataExtractor.extract_metadata` (metadata_extractor.py lines
81-115) on a loaded container: construct `ExistingMetadata(file_path)`
(running `__post_init__` on all-`None` fields), then assign the extracted
values directly to the attributes.  Plain attribute assignment on a Python
dataclass does not re-run `__post_init__`, so `has_genre` and `has_year`
keep the values computed for the all-`None` record, namely `false`. -/
def extract_metadata (t : Mp3Tags) : ExistingMetadata :=
  let m := mkExistingMetadata none none none none none false false
  { m with
      artist := _extract_artist t
      album := _extract_album t
      title := _extract_title t
      genre := _extract_genre t
      year := _extract_year t }

/-- `MusicBrainzMetadata` (musicbrainz_client.py lines 9-24): one enrichment
answer. -/
structure MusicBrainzMetadata where
  genre : Option String := none
  year : Option String := none
deriving DecidableEq

/-- `MusicBrainzMetadata.has_genre` (musicbrainz_client.py lines 18-20). -/
def MusicBrainzMetadata.has_genre (m : MusicBrainzMetadata) : Bool :=
  match m.genre with
  | some s => !(pyStrip s == "")
  | none => false

/-- `MusicBrainzMetadata.has_year` (musicbrainz_client.py lines 22-24). -/
def MusicBrainzMetadata.has_year (m : MusicBrainzMetadata) : Bool :=
  match m.year with
  | some s => !(pyStrip s == "")
  | none => false

/-- The metadata-extraction and API-lookup code of the per-file loop in
`main` (main.py lines 277-427), normal and dry-run modes.  `mb` abstracts
what `musicbrainz_client.get_metadata` would return for this file (network
behavior is out of scope); the album-directory cache is the identity for a
single file and is dropped.  The lookup is attempted only under the guard
of main.py lines 312-319: API enabled and artist, album and title all
truthy.  Note this entire function is unreachable from `mainLoopBody`
below. -/
def mainEnrichmentPath (cfg : Config) (use_api : Bool) (dry_run : Bool)
    (mb : Option MusicBrainzMetadata) (t : Mp3Tags) : ProcOut :=
  let meta := extract_metadata t
  if !meta.needs_genre then
    { success := true, tags_added := [], tags := t, saved := false }
  else
    let callApi := use_api && meta.has_lookup_info && pyTruthyOptStr meta.artist
      && pyTruthyOptStr meta.album && pyTruthyOptStr meta.title
    let api_genre :=
      if callApi then
        match mb with
        | some m => if m.has_genre then m.genre else none
        | none => none
      else none
    let api_year :=
      if callApi then
        match mb with
        | some m => if m.has_year then m.year else none
        | none => none
      else none
    let tags_to_add :=
      (if pyTruthyOptStr api_genre && meta.needs_genre then ["genre"] else []) ++
      (if pyTruthyOptStr api_year && meta.needs_year then ["year"] else [])
    if dry_run then
      { success := true, tags_added := tags_to_add, tags := t, saved := false }
    else if !tags_to_add.isEmpty then
      let w := add_missing_tags cfg dry_run t api_genre api_year
      { success := true, tags_added := w.added, tags := w.tags, saved := w.saved }
    else
      { success := true, tags_added := [], tags := t, saved := false }

/-- The guard `isinstance(direct_result, ProcessingResult)` of main.py line
269.  `ID3Processor.process_file` constructs and returns a
`ProcessingResult` on every code path (processor.py lines 34-75, including
the exception handler), so this test is true for every value it can
receive. -/
def isinstanceProcessingResult (_ : ProcOut) : Bool := true

/-- One iteration of the per-file loop of `main` (main.py lines 261-427):
`process_file` is called first (line 268); because its result always
satisfies the `isinstance` guard, the loop records that result and
`continue`s (lines 269-275), so the enrichment code below the guard never
runs. -/
def mainLoopBody (cfg : Config) (use_api : Bool) (dry_run : Bool)
    (mb : Option MusicBrainzMetadata) (t : Mp3Tags) : ProcOut :=
  let direct_result := process_file cfg dry_run t
  if isinstanceProcessingResult direct_result then direct_result
  else mainEnrichmentPath cfg use_api dry_run mb t

/-- A Python runtime value, for the places where the code performs dynamic
`isinstance` checks: configuration bundles (JSON values) and the dataclass
validators in models.py.  Floats are modelled as rationals. -/
inductive PyVal where
  | pynone : PyVal
  | pybool : Bool → PyVal
  | pyint : Int → PyVal
  | pyfloat : ℚ → PyVal
  | pystr : String → PyVal
  | pylist : List String → PyVal
deriving DecidableEq

/-- `isinstance(v, str)`. -/
def PyVal.isStr : PyVal → Bool
  | .pystr _ => true
  | _ => false

/-- `isinstance(v, bool)`. -/
def PyVal.isBool : PyVal → Bool
  | .pybool _ => true
  | _ => false

/-- `isinstance(v, (int, float))`; Python `bool` is a subclass of `int`. -/
def PyVal.isNum : PyVal → Bool
  | .pyint _ => true
  | .pyfloat _ => true
  | .pybool _ => true
  | _ => false

/-- `isinstance(v, list)`. -/
def PyVal.isList : PyVal → Bool
  | .pylist _ => true
  | _ => false

/-- Numeric value of a `PyVal` that passed `isNum` (booleans count as 0/1,
as in Python). -/
def PyVal.numVal : PyVal → ℚ
  | .pyint n => n
  | .pyfloat q => q
  | .pybool b => if b then 1 else 0
  | _ => 0

/-- String content of a `PyVal` that passed `isStr`. -/
def PyVal.strVal : PyVal → String
  | .pystr s => s
  | _ => ""

/-- `ProcessingResult` (models.py lines 9-15): per-file outcome.  The typed
fields of the Lean record correspond to correctly-typed Python values; the
raw, dynamically-typed view used by `__post_init__` is `toRaw` below. -/
structure ProcessingResult where
  file_path : String
  success : Bool
  tags_added : List String
  error_message : Option String
deriving DecidableEq

/-- The dynamically-typed view of one `ProcessingResult` field assignment:
the raw attribute values `__post_init__` inspects. -/
structure ProcessingResultRaw where
  success : PyVal
  tags_added : PyVal
  error_message : PyVal
deriving DecidableEq

/-- The raw attribute values corresponding to a well-typed
`ProcessingResult`. -/
def ProcessingResult.toRaw (r : ProcessingResult) : ProcessingResultRaw :=
  { success := .pybool r.success,
    tags_added := .pylist r.tags_added,
    error_message :=
      match r.error_message with
      | some s => .pystr s
      | none => .pynone }

/-- `ProcessingResult.__post_init__` (models.py lines 17-29): `success` must
be a bool, `tags_added` a list, `error_message` a string or `None`.  These
are the only checks — no condition relates `success` to `tags_added`. -/
def processingResultPostInit (r : ProcessingResultRaw) :
    Except String ProcessingResultRaw :=
  if !r.success.isBool then .error "success must be a boolean"
  else if !r.tags_added.isList then .error "tags_added must be a list"
  else if !(r.error_message == .pynone || r.error_message.isStr) then
    .error "error_message must be a string or None"
  else .ok r

/-- `ProcessingResults` (models.py lines 32-39): the batch summary.  The
`tags_added_count` dict is modelled by its lookup function
(`d.get(tag, 0)`). -/
structure ProcessingResults where
  total_files : Nat
  processed_files : Nat
  files_modified : Nat
  errors : List ProcessingResult
  tags_added_count : String → Nat

/-- `ProcessingResults.__post_init__` (models.py lines 41-64): the value
checks (`Nat` fields make the non-negativity and type checks hold by
construction); `processed_files ≤ total_files` and
`files_modified ≤ processed_files` are validated here and only here. -/
def processingResultsPostInit (s : ProcessingResults) :
    Except String ProcessingResults :=
  if s.processed_files > s.total_files then
    .error "processed_files cannot exceed total_files"
  else if s.files_modified > s.processed_files then
    .error "files_modified cannot exceed processed_files"
  else .ok s

/-- `ProcessingResults(total_files=n)`: counters start at zero, the error
list empty, the tag-count dict empty (every lookup 0); `__post_init__`
passes on these values. -/
def initResults (total : Nat) : ProcessingResults :=
  { total_files := total, processed_files := 0, files_modified := 0,
    errors := [], tags_added_count := fun _ => 0 }

/-- `ProcessingResults.add_result` (models.py lines 66-80): increment
`processed_files`; on a successful result with a non-empty `tags_added`
list increment `files_modified` and bump each listed tag's counter; on a
failed result append it to `errors`.  No invariant is re-checked here. -/
def add_result (s : ProcessingResults) (r : ProcessingResult) :
    ProcessingResults :=
  let s1 := { s with processed_files := s.processed_files + 1 }
  if r.success then
    if !r.tags_added.isEmpty then
      { s1 with
          files_modified := s1.files_modified + 1,
          tags_added_count :=
            r.tags_added.foldl
              (fun c tag k => if k = tag then c k + 1 else c k)
              s1.tags_added_count }
    else s1
  else { s1 with errors := s1.errors ++ [r] }

/-- The `isinstance(result, ProcessingResult)` check of models.py lines
68-69.  Every value of the Lean type `ProcessingResult` is such an
instance, so in the embedding the check is true. -/
def isinstanceProcessingResultArg (_ : ProcessingResult) : Bool := true

/-- `ProcessingResults.add_result` including its entry guard (models.py
lines 66-69): a non-`ProcessingResult` argument raises `ValueError`; any
`ProcessingResult` instance is accepted. -/
def add_result_checked (s : ProcessingResults) (r : ProcessingResult) :
    Except String ProcessingResults :=
  if isinstanceProcessingResultArg r then .ok (add_result s r)
  else .error "result must be a ProcessingResult instance"

/-- `ConfigurationSchema` (models.py lines 95-106): the nine dataclass
fields, holding the dynamically-typed values as stored.  There is no
`original_release_date` field. -/
structure ConfigurationSchema where
  music_directory : PyVal
  create_backups : PyVal
  verbose : PyVal
  use_api : PyVal
  api_timeout : PyVal
  api_cache_dir : PyVal
  api_request_delay : PyVal
  default_genre : PyVal
  default_year : PyVal
deriving DecidableEq

/-- The keyword names accepted by the `ConfigurationSchema` dataclass
constructor: exactly its fields (models.py lines 95-106). -/
def schemaFieldNames : List String :=
  ["music_directory", "create_backups", "verbose", "use_api", "api_timeout",
   "api_cache_dir", "api_request_delay", "default_genre", "default_year"]

/-- Keyword-argument lookup with a fall-back value, used both for dict
`.get(key, default)` and for dataclass field defaults. -/
def lookupKw (kwargs : List (String × PyVal)) (key : String) (dflt : PyVal) :
    PyVal :=
  match kwargs.find? (fun kv => kv.1 == key) with
  | some kv => kv.2
  | none => dflt

/-- `ConfigurationSchema.__post_init__` (models.py lines 108-135): the
value and dynamic-type validation of every field.  `default_genre` and
`default_year` must be non-empty strings after stripping — nothing checks
that `default_year` is numeric or in any range. -/
def configurationSchemaPostInit (s : ConfigurationSchema) :
    Except String ConfigurationSchema :=
  if !(s.music_directory.isStr && !(pyStrip s.music_directory.strVal == "")) then
    .error "music_directory must be a non-empty string"
  else if !s.create_backups.isBool then
    .error "create_backups must be a boolean"
  else if !s.verbose.isBool then
    .error "verbose must be a boolean"
  else if !s.use_api.isBool then
    .error "use_api must be a boolean"
  else if !(s.api_timeout.isNum && s.api_timeout.numVal > 0) then
    .error "api_timeout must be a positive number"
  else if !(s.api_cache_dir == .pynone || s.api_cache_dir.isStr) then
    .error "api_cache_dir must be a string or None"
  else if !(s.api_request_delay.isNum && s.api_request_delay.numVal ≥ 0) then
    .error "api_request_delay must be a non-negative number"
  else if !(s.default_genre.isStr && !(pyStrip s.default_genre.strVal == "")) then
    .error "default_genre must be a non-empty string"
  else if !(s.default_year.isStr && !(pyStrip s.default_year.strVal == "")) then
    .error "default_year must be a non-empty string"
  else .ok s

/-- `str(datetime.now().year)`, the dataclass default for `default_year`
(models.py line 106), frozen at verification time. -/
def currentYearStr : String := "2026"

/-- The call `ConfigurationSchema(**kwargs)`: Python first rejects any
keyword that is not a dataclass field with a `TypeError`, then fills
missing fields from the dataclass defaults (models.py lines 98-106) and
runs `__post_init__`. -/
def configurationSchemaCall (kwargs : List (String × PyVal)) :
    Except String ConfigurationSchema :=
  if kwargs.any (fun kv => !(schemaFieldNames.contains kv.1)) then
    .error "TypeError: unexpected keyword argument"
  else
    configurationSchemaPostInit
      { music_directory := lookupKw kwargs "music_directory" (.pystr "~/Music"),
        create_backups := lookupKw kwargs "create_backups" (.pybool false),
        verbose := lookupKw kwargs "verbose" (.pybool false),
        use_api := lookupKw kwargs "use_api" (.pybool true),
        api_timeout := lookupKw kwargs "api_timeout" (.pyfloat 10),
        api_cache_dir := lookupKw kwargs "api_cache_dir" .pynone,
        api_request_delay := lookupKw kwargs "api_request_delay" (.pyfloat (mkRat 1 2)),
        default_genre := lookupKw kwargs "default_genre" (.pystr "Unknown"),
        default_year := lookupKw kwargs "default_year" (.pystr currentYearStr) }

/-- `Configuration._create_schema_from_dict` (config.py lines 42-74):
extract each recognized key from the bundle, with `None` as the fall-back
for `default_genre` and `default_year` and `True` for
`original_release_date`, and call the `ConfigurationSchema` constructor
with all ten keywords — including `original_release_date`, which is not a
field of the dataclass. -/
def _create_schema_from_dict (config_data : List (String × PyVal)) :
    Except String ConfigurationSchema :=
  configurationSchemaCall
    [("music_directory", lookupKw config_data "music_directory" (.pystr "~/Music")),
     ("create_backups", lookupKw config_data "create_backups" (.pybool false)),
     ("verbose", lookupKw config_data "verbose" (.pybool false)),
     ("use_api", lookupKw config_data "use_api" (.pybool true)),
     ("api_timeout", lookupKw config_data "api_timeout" (.pyfloat 10)),
     ("api_cache_dir", lookupKw config_data "api_cache_dir" .pynone),
     ("api_request_delay", lookupKw config_data "api_request_delay" (.pyfloat (mkRat 1 2))),
     ("default_genre", lookupKw config_data "default_genre" .pynone),
     ("default_year", lookupKw config_data "default_year" .pynone),
     ("original_release_date", lookupKw config_data "original_release_date" (.pybool true))]


/-- Writing the TCON frame does not change how `needs_year_tag` reads the
container (it only inspects TDRC and TYER). -/
theorem needs_year_tag_set_tcon (t : Mp3Tags) (x : Option (List String)) :
    needs_year_tag { t with tcon := x } = needs_year_tag t := rfl

/-- Closed-form description of `add_missing_tags`: each field is written
exactly when its effective value is truthy and its needs-check holds on the
input container, and a save happens exactly when something was written and
dry-run mode is off. -/
theorem add_missing_tags_eq (cfg : Config) (dry_run : Bool) (t : Mp3Tags)
    (genre year : Option String) :
    add_missing_tags cfg dry_run t genre year =
      { added :=
          (if pyTruthyOptStr (effectiveValue genre cfg.default_genre)
              && needs_genre_tag t then ["genre"] else []) ++
          (if pyTruthyOptStr (effectiveValue year cfg.default_year)
              && needs_year_tag t then ["year"] else []),
        tags := { t with
          tcon := if pyTruthyOptStr (effectiveValue genre cfg.default_genre)
                      && needs_genre_tag t
                  then some [(effectiveValue genre cfg.default_genre).getD ""]
                  else t.tcon,
          tdrc := if pyTruthyOptStr (effectiveValue year cfg.default_year)
                      && needs_year_tag t
                  then some [(effectiveValue year cfg.default_year).getD ""]
                  else t.tdrc,
          tyer := if pyTruthyOptStr (effectiveValue year cfg.default_year)
                      && needs_year_tag t
                  then some [(effectiveValue year cfg.default_year).getD ""]
                  else t.tyer },
        saved :=
          (pyTruthyOptStr (effectiveValue genre cfg.default_genre)
              && needs_genre_tag t
            || pyTruthyOptStr (effectiveValue year cfg.default_year)
              && needs_year_tag t) && !dry_run } := by
  unfold add_missing_tags
  cases hg : pyTruthyOptStr (effectiveValue genre cfg.default_genre)
      && needs_genre_tag t <;>
    cases hy : pyTruthyOptStr (effectiveValue year cfg.default_year)
        && needs_year_tag t <;>
      simp [hg, hy, needs_year_tag_set_tcon]

/-- C1: for every file whose genre (respectively year) tag is already
present and non-blank — i.e. the corresponding needs-check reports
`false` — processing never replaces that frame, whatever enrichment
values, overrides, or configured defaults are supplied: `add_missing_tags`
writes a field only when its needs-check reports it missing, and
`process_file` inherits this. -/
theorem C1_existing_tags_never_replaced (cfg : Config) (dry_run : Bool)
    (t : Mp3Tags) (genre year : Option String) :
    (needs_genre_tag t = false →
      (add_missing_tags cfg dry_run t genre year).tags.tcon = t.tcon ∧
      (process_file cfg dry_run t).tags.tcon = t.tcon) ∧
    (needs_year_tag t = false →
      (add_missing_tags cfg dry_run t genre year).tags.tdrc = t.tdrc ∧
      (add_missing_tags cfg dry_run t genre year).tags.tyer = t.tyer ∧
      (process_file cfg dry_run t).tags.tdrc = t.tdrc ∧
      (process_file cfg dry_run t).tags.tyer = t.tyer) := by
  constructor
  · intro h
    refine ⟨by simp [add_missing_tags_eq, h], ?_⟩
    cases hy : needs_year_tag t <;>
      simp [process_file, h, hy, add_missing_tags_eq]
  · intro h
    refine ⟨by simp [add_missing_tags_eq, h], by simp [add_missing_tags_eq, h], ?_, ?_⟩ <;>
      cases hg : needs_genre_tag t <;>
        simp [process_file, h, hg, add_missing_tags_eq]

/-- Witness for C1: a file with existing genre Jazz and year 1999 keeps
both frames even when an enrichment genre Pop, an enrichment year 2005 and
defaults are supplied. -/
theorem C1_witness :
    needs_genre_tag { tcon := some ["Jazz"], tyer := some ["1999"] } = false ∧
    needs_year_tag { tcon := some ["Jazz"], tyer := some ["1999"] } = false ∧
    (add_missing_tags { default_genre := some "Rock", default_year := some "2001" }
        false { tcon := some ["Jazz"], tyer := some ["1999"] }
        (some "Pop") (some "2005")).tags.tcon = some ["Jazz"] ∧
    (add_missing_tags { default_genre := some "Rock", default_year := some "2001" }
        false { tcon := some ["Jazz"], tyer := some ["1999"] }
        (some "Pop") (some "2005")).tags.tyer = some ["1999"] := by
  refine ⟨by decide, by decide, ?_, ?_⟩
  · exact ((C1_existing_tags_never_replaced
      { default_genre := some "Rock", default_year := some "2001" } false
      { tcon := some ["Jazz"], tyer := some ["1999"] }
      (some "Pop") (some "2005")).1 (by decide)).1
  · exact ((C1_existing_tags_never_replaced
      { default_genre := some "Rock", default_year := some "2001" } false
      { tcon := some ["Jazz"], tyer := some ["1999"] }
      (some "Pop") (some "2005")).2 (by decide)).2.1

/-- C3: when no field needs writing the write-back returns an empty list,
performs no save and leaves the container untouched; and in every case the
written-field list is exactly the concatenation of genre-then-year entries
for the fields that were missing and had a truthy effective value
(provided value, else configured default); `process_file` likewise never
saves when its written list is empty. -/
theorem C3_written_fields_exact (cfg : Config) (dry_run : Bool) (t : Mp3Tags)
    (genre year : Option String) :
    (add_missing_tags cfg dry_run t genre year).added =
      (if pyTruthyOptStr (effectiveValue genre cfg.default_genre)
          && needs_genre_tag t then ["genre"] else []) ++
      (if pyTruthyOptStr (effectiveValue year cfg.default_year)
          && needs_year_tag t then ["year"] else []) ∧
    ((add_missing_tags cfg dry_run t genre year).added = [] →
      (add_missing_tags cfg dry_run t genre year).saved = false ∧
      (add_missing_tags cfg dry_run t genre year).tags = t) ∧
    ((process_file cfg dry_run t).tags_added = [] →
      (process_file cfg dry_run t).saved = false) := by
  refine ⟨by simp [add_missing_tags_eq], ?_, ?_⟩
  · intro h
    rw [add_missing_tags_eq] at h ⊢
    cases hg : pyTruthyOptStr (effectiveValue genre cfg.default_genre)
        && needs_genre_tag t <;>
      cases hy : pyTruthyOptStr (effectiveValue year cfg.default_year)
          && needs_year_tag t <;>
        simp [hg, hy] at h ⊢
  · intro h
    cases hg : needs_genre_tag t <;> cases hy : needs_year_tag t <;>
      simp [process_file, hg, hy, add_missing_tags_eq] at h ⊢ <;>
        simp [h]

/-- Witness for C3: a file with both tags present gets an empty written
list, no save and an unchanged container. -/
theorem C3_witness :
    (add_missing_tags { default_genre := some "Rock", default_year := some "2001" }
        false { tcon := some ["Jazz"], tdrc := some ["1987"] } none none).saved
      = false ∧
    (add_missing_tags { default_genre := some "Rock", default_year := some "2001" }
        false { tcon := some ["Jazz"], tdrc := some ["1987"] } none none).tags
      = { tcon := some ["Jazz"], tdrc := some ["1987"] } := by
  exact (C3_written_fields_exact
    { default_genre := some "Rock", default_year := some "2001" } false
    { tcon := some ["Jazz"], tdrc := some ["1987"] } none none).2.1 (by decide)

/-- C6: in dry-run mode, a file needing both fields, with truthy resolvable
values for both, reports the would-be-written list (genre then year) but no
save runs and the persisted container is unchanged; `process_file` in
dry-run mode never saves. -/
theorem C6_dry_run_no_save (cfg : Config) (t : Mp3Tags)
    (genre year : Option String)
    (hg : needs_genre_tag t = true) (hy : needs_year_tag t = true)
    (hgv : pyTruthyOptStr (effectiveValue genre cfg.default_genre) = true)
    (hyv : pyTruthyOptStr (effectiveValue year cfg.default_year) = true) :
    (add_missing_tags cfg true t genre year).added = ["genre", "year"] ∧
    (add_missing_tags cfg true t genre year).saved = false ∧
    persistedTags t (add_missing_tags cfg true t genre year).tags
      (add_missing_tags cfg true t genre year).saved = t ∧
    (process_file cfg true t).saved = false ∧
    persistedTags t (process_file cfg true t).tags
      (process_file cfg true t).saved = t := by
  refine ⟨by simp [add_missing_tags_eq, hg, hy, hgv, hyv],
          by simp [add_missing_tags_eq],
          by simp [add_missing_tags_eq, persistedTags], ?_, ?_⟩ <;>
    simp [process_file, hg, hy, add_missing_tags_eq, persistedTags]

/-- Witness for C6: dry-run on an empty container with both defaults
configured reports both fields but leaves the persisted container empty. -/
theorem C6_witness :
    (add_missing_tags { default_genre := some "Rock", default_year := some "1999" }
        true { } (some "Rock") (some "1999")).added = ["genre", "year"] ∧
    (add_missing_tags { default_genre := some "Rock", default_year := some "1999" }
        true { } (some "Rock") (some "1999")).saved = false ∧
    persistedTags { }
      (add_missing_tags { default_genre := some "Rock", default_year := some "1999" }
        true { } (some "Rock") (some "1999")).tags
      (add_missing_tags { default_genre := some "Rock", default_year := some "1999" }
        true { } (some "Rock") (some "1999")).saved = { } := by
  have h := C6_dry_run_no_save
    { default_genre := some "Rock", default_year := some "1999" } { }
    (some "Rock") (some "1999") (by decide) (by decide) (by decide) (by decide)
  exact ⟨h.1, h.2.1, h.2.2.1⟩

/-- C2: evaluation of the per-file loop of `main` at the claim's scenario
(genre and year missing, lookup keys present, enrichment enabled and
returning genre Rock and year 1999, defaults Unknown / 2026).  The loop
records the `process_file` result unconditionally — the `isinstance` guard
of main.py line 269 is always true — so the configured defaults are
written, not the enrichment values; the enrichment code below the guard
(which would have written Rock and 1999) is unreachable. -/
theorem C2_defaults_written_enrichment_unreachable :
    mainLoopBody { default_genre := some "Unknown", default_year := some "2026" }
        true false (some { genre := some "Rock", year := some "1999" })
        { tpe1 := some ["A"], talb := some ["B"], tit2 := some ["T"] }
      = process_file { default_genre := some "Unknown", default_year := some "2026" }
          false { tpe1 := some ["A"], talb := some ["B"], tit2 := some ["T"] } ∧
    (mainLoopBody { default_genre := some "Unknown", default_year := some "2026" }
        true false (some { genre := some "Rock", year := some "1999" })
        { tpe1 := some ["A"], talb := some ["B"], tit2 := some ["T"] }).tags_added
      = ["genre", "year"] ∧
    (mainLoopBody { default_genre := some "Unknown", default_year := some "2026" }
        true false (some { genre := some "Rock", year := some "1999" })
        { tpe1 := some ["A"], talb := some ["B"], tit2 := some ["T"] }).tags.tcon
      = some ["Unknown"] ∧
    (mainLoopBody { default_genre := some "Unknown", default_year := some "2026" }
        true false (some { genre := some "Rock", year := some "1999" })
        { tpe1 := some ["A"], talb := some ["B"], tit2 := some ["T"] }).tags.tdrc
      = some ["2026"] ∧
    (mainEnrichmentPath { default_genre := some "Unknown", default_year := some "2026" }
        true false (some { genre := some "Rock", year := some "1999" })
        { tpe1 := some ["A"], talb := some ["B"], tit2 := some ["T"] }).tags.tcon
      = some ["Rock"] ∧
    (mainEnrichmentPath { default_genre := some "Unknown", default_year := some "2026" }
        true false (some { genre := some "Rock", year := some "1999" })
        { tpe1 := some ["A"], talb := some ["B"], tit2 := some ["T"] }).tags.tdrc
      = some ["1999"] := by
  exact ⟨rfl, by decide, by decide, by decide, by decide, by decide⟩

/-- Counterexample to C4: a configured default year 1899 is accepted — the
write-back stage stages and writes it, rather than treating it as absent as
the claim requires of every source. -/
theorem C4_counterexample_default_year_1899_accepted :
    (add_missing_tags { default_genre := none, default_year := some "1899" }
        false { } none none).added = ["year"] ∧
    (add_missing_tags { default_genre := none, default_year := some "1899" }
        false { } none none).tags.tdrc = some ["1899"] ∧
    (add_missing_tags { default_genre := none, default_year := some "1899" }
        false { } none none).saved = true := by
  decide

/-- C4 amended: the closed-interval acceptance [1900, 2030] (1899 and 2031
rejected, 1900 and 2030 accepted) is enforced only when the local tag year
is extracted by `MetadataExtractor._extract_year`, for both the TDRC and
TYER frames; a year reaching `add_missing_tags` from the configured default
(or any provided value) is written without range validation. -/
theorem C4_year_range_checked_only_in_extractor :
    _extract_year { tdrc := some ["1899-01-01"] } = none ∧
    _extract_year { tdrc := some ["2031-01-01"] } = none ∧
    _extract_year { tdrc := some ["1900-06-15"] } = some "1900" ∧
    _extract_year { tdrc := some ["2030-06-15"] } = some "2030" ∧
    _extract_year { tyer := some ["1899"] } = none ∧
    _extract_year { tyer := some ["2031"] } = none ∧
    _extract_year { tyer := some ["1900"] } = some "1900" ∧
    _extract_year { tyer := some ["2030"] } = some "2030" ∧
    (add_missing_tags { default_genre := none, default_year := some "2031" }
        false { } none none).tags.tyer = some ["2031"] := by
  decide

/-- Counterexample to C5: for the container genre Unknown, the extractor
snapshot does treat the placeholder as null (genre none, needs_genre true),
but `ID3Processor.needs_genre_tag` — the other place genre necessity is
decided — reports the genre as present, so the placeholder rule does not
hold uniformly. -/
theorem C5_counterexample_placeholder_not_uniform :
    (extract_metadata { tcon := some ["Unknown"] }).genre = none ∧
    (extract_metadata { tcon := some ["Unknown"] }).needs_genre = true ∧
    needs_genre_tag { tcon := some ["Unknown"] } = false := by
  decide

/-- C5 amended: for every container genre that is the placeholder word
unknown or other in any letter case (and non-blank), the extractor snapshot
has a null genre and its needs_genre() is true; but this holds only in the
extractor path — `ID3Processor.needs_genre_tag` treats any non-blank genre,
placeholders included, as present and returns false. -/
theorem C5_placeholder_null_in_extractor_only (s : String)
    (hne : ¬ pyStrip s = "")
    (hpl : pyLower (pyStrip s) = "unknown" ∨ pyLower (pyStrip s) = "other") :
    _extract_genre { tcon := some [s] } = none ∧
    (extract_metadata { tcon := some [s] }).genre = none ∧
    (extract_metadata { tcon := some [s] }).needs_genre = true ∧
    needs_genre_tag { tcon := some [s] } = false := by
  have hs : ¬ s = "" := by
    intro h
    exact hne (by rw [h]; decide)
  have hbeq : (s == "") = false := by simp [hs]
  have hbeq2 : (pyStrip s == "") = false := by simp [hne]
  have hgen : _extract_genre { tcon := some [s] } = none := by
    have hc : (["unknown", "other", ""].contains (pyLower (pyStrip s))) = true := by
      rcases hpl with h | h <;> rw [h] <;> decide
    simp only [_extract_genre, frameFirstTruthy, List.head?, hbeq, hbeq2, hc,
      Bool.not_false, Bool.not_true, Bool.and_false, if_true, if_false,
      ite_true, ite_false]
    simp
  refine ⟨hgen, ?_, rfl, ?_⟩
  · show _extract_genre { tcon := some [s] } = none
    exact hgen
  · simp [needs_genre_tag, hne]

/-- Witness for C5 amended: the mixed-case, padded placeholder " OTHER ". -/
theorem C5_witness :
    _extract_genre { tcon := some [" OTHER "] } = none ∧
    (extract_metadata { tcon := some [" OTHER "] }).genre = none ∧
    (extract_metadata { tcon := some [" OTHER "] }).needs_genre = true ∧
    needs_genre_tag { tcon := some [" OTHER "] } = false := by
  exact C5_placeholder_null_in_extractor_only " OTHER " (by decide)
    (Or.inr (by decide))

/-- Bumping the tag-count dict once per list entry adds, at each key, the
number of occurrences of that key in the list. -/
theorem bump_counts_get (tags : List String) (c : String → Nat) (f : String) :
    (tags.foldl (fun c tag k => if k = tag then c k + 1 else c k) c) f
      = c f + tags.count f := by
  induction tags generalizing c with
  | nil => simp
  | cons a l ih =>
    rw [List.foldl_cons, ih, List.count_cons]
    by_cases h : f = a
    · simp [h]
      omega
    · have h2 : ¬ a = f := fun hh => h hh.symm
      simp [h, h2]

/-- Field-level description of one `add_result` step. -/
theorem add_result_fields (s : ProcessingResults) (r : ProcessingResult) :
    (add_result s r).total_files = s.total_files ∧
    (add_result s r).processed_files = s.processed_files + 1 ∧
    (add_result s r).files_modified = s.files_modified
      + (if r.success && !r.tags_added.isEmpty then 1 else 0) ∧
    (add_result s r).errors = s.errors ++ (if r.success then [] else [r]) ∧
    ∀ f, (add_result s r).tags_added_count f = s.tags_added_count f
      + (if r.success && !r.tags_added.isEmpty then r.tags_added.count f else 0) := by
  cases hs : r.success <;> cases he : r.tags_added.isEmpty <;>
    simp [add_result, hs, he, bump_counts_get]

/-- Folding `add_result` over a result list from any starting summary:
totals are untouched, processed grows by the list length, modified by the
number of successful results with non-empty tag lists, the error list is
extended by exactly the failed results in order, and each tag counter by
the total occurrence count of that tag in the successful non-empty
results. -/
theorem foldl_add_result (rs : List ProcessingResult) (s : ProcessingResults) :
    (rs.foldl add_result s).total_files = s.total_files ∧
    (rs.foldl add_result s).processed_files = s.processed_files + rs.length ∧
    (rs.foldl add_result s).files_modified = s.files_modified
      + (rs.filter (fun r => r.success && !r.tags_added.isEmpty)).length ∧
    (rs.foldl add_result s).errors = s.errors
      ++ rs.filter (fun r => !r.success) ∧
    ∀ f, (rs.foldl add_result s).tags_added_count f = s.tags_added_count f
      + ((rs.filter (fun r => r.success && !r.tags_added.isEmpty)).map
          (fun r => r.tags_added.count f)).sum := by
  induction rs generalizing s with
  | nil => simp
  | cons a l ih =>
    obtain ⟨h1, h2, h3, h4, h5⟩ := add_result_fields s a
    obtain ⟨g1, g2, g3, g4, g5⟩ := ih (add_result s a)
    rw [List.foldl_cons]
    refine ⟨by rw [g1, h1], by rw [g2, h2]; simp [List.length_cons]; omega,
      ?_, ?_, ?_⟩
    · rw [g3, h3]
      cases hs : a.success <;> cases he : a.tags_added.isEmpty <;>
        (simp [hs, he, List.filter_cons, List.length_cons]; try omega)
    · rw [g4, h4]
      cases hs : a.success <;> simp [hs, List.filter_cons]
    · intro f
      rw [g5 f, h5 f]
      cases hs : a.success <;> cases he : a.tags_added.isEmpty <;>
        (simp [hs, he, List.filter_cons]; try omega)

/-- A successful outcome with an empty written-field list (used by the C7
statements). -/
def c7OkEmpty : ProcessingResult :=
  { file_path := "a.mp3", success := true, tags_added := [],
    error_message := none }

/-- A successful outcome that wrote genre and year (used by the C7
statements). -/
def c7OkBoth : ProcessingResult :=
  { file_path := "a.mp3", success := true, tags_added := ["genre", "year"],
    error_message := none }

/-- A failed outcome (used by the C7 statements). -/
def c7Failed : ProcessingResult :=
  { file_path := "b.mp3", success := false, tags_added := [],
    error_message := some "bad" }

/-- Counterexample to C7: `add_result` increments `processed_files` without
re-checking it against `total_files` (that check runs only in
`__post_init__`), so after one `add_result` call on a summary constructed
with `total_files = 0` the invariant `processed ≤ total` is violated. -/
theorem C7_counterexample_processed_exceeds_total :
    ¬ (([c7OkEmpty].foldl add_result (initResults 0)).processed_files
        ≤ ([c7OkEmpty].foldl add_result (initResults 0)).total_files) := by
  decide

/-- C7 amended: after any sequence of at most `total_files` many
`add_result` calls on a freshly constructed summary, the invariants hold:
processed equals the number of calls and stays at most total; modified
counts exactly the successful outcomes with non-empty written-field lists
(so modified ≤ processed); each failed outcome is appended, in order, to
the error list and never increments modified; and each field counter equals
the total number of occurrences of that field in the successful non-empty
written-field lists (one per occurrence).  The bound `processed ≤ total` is
validated by the code only at construction, not at each mutation, which is
what the counterexample exploits. -/
theorem C7_accumulator_invariants (total : Nat) (rs : List ProcessingResult)
    (hlen : rs.length ≤ total) :
    (rs.foldl add_result (initResults total)).total_files = total ∧
    (rs.foldl add_result (initResults total)).processed_files = rs.length ∧
    (rs.foldl add_result (initResults total)).processed_files
      ≤ (rs.foldl add_result (initResults total)).total_files ∧
    (rs.foldl add_result (initResults total)).files_modified
      = (rs.filter (fun r => r.success && !r.tags_added.isEmpty)).length ∧
    (rs.foldl add_result (initResults total)).files_modified
      ≤ (rs.foldl add_result (initResults total)).processed_files ∧
    (rs.foldl add_result (initResults total)).errors
      = rs.filter (fun r => !r.success) ∧
    ∀ f, (rs.foldl add_result (initResults total)).tags_added_count f
      = ((rs.filter (fun r => r.success && !r.tags_added.isEmpty)).map
          (fun r => r.tags_added.count f)).sum := by
  obtain ⟨h1, h2, h3, h4, h5⟩ := foldl_add_result rs (initResults total)
  refine ⟨by simpa [initResults] using h1, by simpa [initResults] using h2,
    ?_, by simpa [initResults] using h3, ?_, by simpa [initResults] using h4,
    fun f => by simpa [initResults] using h5 f⟩
  · rw [h1, h2]
    simpa [initResults] using hlen
  · rw [h2, h3]
    have := List.length_filter_le (fun r => r.success && !r.tags_added.isEmpty) rs
    simp [initResults]
    omega

/-- Witness for C7 amended: two outcomes (one success writing genre and
year, one failure) against a summary constructed for three files. -/
theorem C7_witness :
    ([c7OkBoth, c7Failed].foldl add_result (initResults 3)).files_modified = 1 ∧
    ([c7OkBoth, c7Failed].foldl add_result (initResults 3)).tags_added_count
      "genre" = 1 := by
  have h := C7_accumulator_invariants 3 [c7OkBoth, c7Failed] (by decide)
  constructor
  · rw [h.2.2.2.1]
    decide
  · rw [h.2.2.2.2.2.2 "genre"]
    decide

/-- C8: evaluation of configuration construction at the claim's inputs.
`_create_schema_from_dict` always passes the keyword
`original_release_date` to the `ConfigurationSchema` constructor, which has
no such field, so construction raises a `TypeError` for every bundle — both
for the well-formed bundle the tests expect to load and for the empty
bundle the claim expects to yield the documented defaults.  Moreover the
schema validation itself accepts the non-numeric provided year
"invalid_year" (only non-empty-string is checked), so a malformed provided
year is not rejected. -/
theorem C8_schema_construction_broken :
    _create_schema_from_dict
        [("default_genre", .pystr "Rock"), ("default_year", .pystr "2020")]
      = .error "TypeError: unexpected keyword argument" ∧
    _create_schema_from_dict []
      = .error "TypeError: unexpected keyword argument" ∧
    configurationSchemaCall [("default_year", .pystr "invalid_year")]
      = .ok { music_directory := .pystr "~/Music", create_backups := .pybool false,
              verbose := .pybool false, use_api := .pybool true,
              api_timeout := .pyfloat 10, api_cache_dir := .pynone,
              api_request_delay := .pyfloat (mkRat 1 2),
              default_genre := .pystr "Unknown",
              default_year := .pystr "invalid_year" } := by
  exact ⟨rfl, rfl, rfl⟩

/-- An outcome that violates the documented invariant success = false →
empty written-field list (used by the C9 statements). -/
def c9Bad : ProcessingResult :=
  { file_path := "x.mp3", success := false, tags_added := ["genre"],
    error_message := some "boom" }

/-- Counterexample to C9: the outcome with success false and written-field
list ["genre"] passes `ProcessingResult.__post_init__` (which checks only
dynamic types) and is accepted by `add_result` without any validation
failure — it lands in the failure list, its written fields silently
ignored. -/
theorem C9_counterexample_invalid_outcome_accepted :
    processingResultPostInit c9Bad.toRaw = .ok c9Bad.toRaw ∧
    add_result_checked (initResults 3) c9Bad
      = .ok (add_result (initResults 3) c9Bad) ∧
    (add_result (initResults 3) c9Bad).errors = [c9Bad] ∧
    (add_result (initResults 3) c9Bad).files_modified = 0 := by
  exact ⟨rfl, rfl, by decide, rfl⟩

/-- C9 amended: `add_result` rejects only arguments that are not
`ProcessingResult` instances, and `__post_init__` checks only the dynamic
types of the fields; every well-typed outcome with success false — whatever
its written-field list — passes validation and is accepted: processed grows
by one, the outcome is appended to the failure list, and nothing else
changes. -/
theorem C9_validation_checks_types_only (s : ProcessingResults)
    (r : ProcessingResult) (h : r.success = false) :
    processingResultPostInit r.toRaw = .ok r.toRaw ∧
    add_result_checked s r
      = .ok { s with processed_files := s.processed_files + 1,
                     errors := s.errors ++ [r] } := by
  constructor
  · cases hm : r.error_message <;>
      simp [ProcessingResult.toRaw, processingResultPostInit, hm,
        PyVal.isBool, PyVal.isList, PyVal.isStr]
  · simp [add_result_checked, isinstanceProcessingResultArg, add_result, h]

/-- Witness for C9 amended: the invariant-violating outcome is accepted
against a fresh summary for three files. -/
theorem C9_witness :
    processingResultPostInit c9Bad.toRaw = .ok c9Bad.toRaw ∧
    add_result_checked (initResults 3) c9Bad
      = .ok { initResults 3 with processed_files := 1, errors := [c9Bad] } := by
  exact C9_validation_checks_types_only (initResults 3) c9Bad rfl

/-- `_normalize_string` in the spec's formulation: strip the content (with
absent treated as empty) and collapse an empty result to null. -/
theorem _normalize_string_eq (v : Option String) :
    _normalize_string v =
      (if pyStrip (v.getD "") == "" then none else some (pyStrip (v.getD ""))) := by
  cases v with
  | none => rfl
  | some s =>
    show (if !(pyStrip s == "") then some (pyStrip s) else none) = _
    cases h : pyStrip s == "" <;> simp [h]

/-- C10: immediately after construction, every string attribute of an
`ExistingMetadata` is whitespace-trimmed with empty-after-trim collapsed to
null, `has_genre` equals genre presence, `has_year` equals year presence,
and the flag values supplied to the constructor are irrelevant — they are
always recomputed. -/
theorem C10_constructor_normalizes
    (artist album title genre year : Option String) (hg hy : Bool) :
    (mkExistingMetadata artist album title genre year hg hy).artist
      = (if pyStrip (artist.getD "") == "" then none
         else some (pyStrip (artist.getD ""))) ∧
    (mkExistingMetadata artist album title genre year hg hy).album
      = (if pyStrip (album.getD "") == "" then none
         else some (pyStrip (album.getD ""))) ∧
    (mkExistingMetadata artist album title genre year hg hy).title
      = (if pyStrip (title.getD "") == "" then none
         else some (pyStrip (title.getD ""))) ∧
    (mkExistingMetadata artist album title genre year hg hy).genre
      = (if pyStrip (genre.getD "") == "" then none
         else some (pyStrip (genre.getD ""))) ∧
    (mkExistingMetadata artist album title genre year hg hy).year
      = (if pyStrip (year.getD "") == "" then none
         else some (pyStrip (year.getD ""))) ∧
    (mkExistingMetadata artist album title genre year hg hy).has_genre
      = (mkExistingMetadata artist album title genre year hg hy).genre.isSome ∧
    (mkExistingMetadata artist album title genre year hg hy).has_year
      = (mkExistingMetadata artist album title genre year hg hy).year.isSome ∧
    mkExistingMetadata artist album title genre year hg hy
      = mkExistingMetadata artist album title genre year true true := by
  refine ⟨?_, ?_, ?_, ?_, ?_, rfl, rfl, rfl⟩ <;>
    exact _normalize_string_eq _
